import Mathlib

/-!
Shallow embedding of the load-verification service (verificationService and
the batch endpoint of server.ts).

Modelling conventions for the JavaScript/TypeScript source:
- A JS `number` field is modelled as `Int` (the engine only compares and
  subtracts; the upstream layer validates ranges).
- `new Date(postedAt).getTime()` never throws in JS; an unparseable string
  yields `NaN`.  We therefore model the `posted_at` field directly as the
  parse result `Option Int` (milliseconds since epoch; `none` models `NaN`
  from an unparseable timestamp).  Every comparison `NaN > c` is `false` in
  JS, captured by `nanGt`.
- A possibly-absent / possibly-falsy JSON string field is `Option String`
  (`none` models `undefined`); `jsOr` models the `x || d` default idiom
  (both `undefined` and the empty string are falsy).
- The FMCSA `outOfServiceDate` field needs three states (absent, `null`,
  or a date string) because the source tests it with `!== null`;
  `JsonNullable` models that.
- The single network call of `verifyFMCSA` is modelled by an explicit
  outcome parameter `FMCSAOutcome` (what axios would deliver), and the
  ambient `process.env.FMCSA_API_KEY` and `Date.now()` by fields of a
  `VerifyEnv` record.  A hypothetical unexpected exception thrown by a
  check (the defensive case the engine's try/catch exists for) is modelled
  by optional injected error messages in `VerifyEnv`, default `none`.
-/

/-- Final status tag of a `VerificationResult`. -/
inductive VerificationStatus where
  | APPROVED
  | REJECTED
  | NEEDS_REVIEW
deriving DecidableEq, Repr

/-- JSON field that the source compares against `null` with `!==`:
`undef` models an absent field (`undefined`), `null` the JSON null,
`val` a present string value. -/
inductive JsonNullable where
  | undef
  | null
  | val (s : String)
deriving DecidableEq, Repr

/-- JS falsiness of an optional string (`!x` for `string | undefined`):
true for `undefined` and for the empty string. -/
def jsFalsyStr : Option String → Bool
  | none => true
  | some s => s == ""

/-- The JS `x || d` default idiom on an optional string field. -/
def jsOr (x : Option String) (d : String) : String :=
  match x with
  | none => d
  | some s => if s == "" then d else s

/-- JS comparison `a > b` where `a` may be `NaN` (`none`): every comparison
against `NaN` is false. -/
def nanGt : Option Int → Int → Bool
  | none, _ => false
  | some a, b => a > b

/-- JS string interpolation of a number that may be `NaN`. -/
def numToString : Option Int → String
  | none => "NaN"
  | some n => toString n

/-- Input record (`LoadVerificationInput`).  `posted_at` carries the result
of `new Date(posted_at).getTime()` (see module conventions). -/
structure LoadVerificationInput where
  load_id : String
  broker_name : String
  broker_mc : String
  credit_score : Int
  posted_at : Option Int
  pickup_city : String
  delivery_city : String
  rate : Int
  equipment : String
deriving DecidableEq, Repr

/-- Parsed carrier record (`FMCSACarrier`). -/
structure FMCSACarrier where
  mc_number : String
  legal_name : String
  status : String
  allowed_to_operate : Bool
  out_of_service : Bool
  carrier_operation : String
deriving DecidableEq, Repr

/-- The metadata bag built by `verifyLoad` (an untyped `any` object in the
source, with exactly these keys assigned).  `load_age_minutes` stores the
check's `ageMinutes` number, which may be `NaN` (inner `none`). -/
structure MetadataBag where
  credit_score_check : Option String := none
  fmcsa_status : Option String := none
  carrier_info : Option FMCSACarrier := none
  load_age_minutes : Option (Option Int) := none
deriving DecidableEq, Repr

/-- Output record (`VerificationResult`).  `verified_at` models the
`new Date().toISOString()` completion timestamp as the current epoch
milliseconds. -/
structure VerificationResult where
  verification_status : VerificationStatus
  reasons : List String
  verified_at : Int
  metadata : MetadataBag
deriving DecidableEq, Repr

-- Configuration constants of the service (the `CONFIG` object literal).
namespace CONFIG

def CREDIT_SCORE_MIN : Int := 82

def CREDIT_SCORE_MAX : Int := 97

def LOAD_FRESHNESS_WARNING_MINUTES : Int := 30

def LOAD_FRESHNESS_REJECT_MINUTES : Int := 60

def FMCSA_TIMEOUT_MS : Nat := 5000

end CONFIG

/-- Result shape of `verifyCreditScore`. -/
structure CreditCheckResult where
  status : String
  reject : Bool := false
  warning : Option String := none
  reason : Option String := none
deriving DecidableEq, Repr

/-- Result shape of `verifyLoadFreshness`. -/
structure FreshnessCheckResult where
  ageMinutes : Option Int
  reject : Bool := false
  warning : Option String := none
  reason : Option String := none
deriving DecidableEq, Repr

/-- Result shape of `verifyFMCSA`. -/
structure FMCSACheckResult where
  status : String
  carrier : Option FMCSACarrier := none
  reject : Bool := false
  warning : Option String := none
  reason : Option String := none
deriving DecidableEq, Repr

/-- Credit score verification (`verifyCreditScore`). -/
def verifyCreditScore (score : Int) : CreditCheckResult :=
  if score < CONFIG.CREDIT_SCORE_MIN then
    { status := "FAILED"
      reject := true
      reason := some ("Credit score " ++ toString score ++
        " below minimum threshold (" ++ toString CONFIG.CREDIT_SCORE_MIN ++ ")") }
  else if score > CONFIG.CREDIT_SCORE_MAX then
    { status := "SUSPICIOUS"
      warning := some ("Credit score " ++ toString score ++
        " unusually high - may indicate fake/manipulated score") }
  else
    { status := "PASSED" }

/-- Load freshness verification (`verifyLoadFreshness`).
`postedAt` is the parsed `new Date(postedAt).getTime()` (`none` = `NaN`);
`now` is `Date.now()`.  `ageMinutes = Math.floor((now - postedTime)/1000/60)`
is floor division, `Int.fdiv`; with a `NaN` posted time it is `NaN` and
fails both threshold comparisons. -/
def verifyLoadFreshness (postedAt : Option Int) (now : Int) : FreshnessCheckResult :=
  let postedTime := postedAt
  let ageMinutes := postedTime.map (fun t => Int.fdiv (now - t) (1000 * 60))
  if nanGt ageMinutes CONFIG.LOAD_FRESHNESS_REJECT_MINUTES then
    { ageMinutes := ageMinutes
      reject := true
      reason := some ("Load posted " ++ numToString ageMinutes ++
        " minutes ago - likely unavailable (>" ++
        toString CONFIG.LOAD_FRESHNESS_REJECT_MINUTES ++ "min threshold)") }
  else if nanGt ageMinutes CONFIG.LOAD_FRESHNESS_WARNING_MINUTES then
    { ageMinutes := ageMinutes
      warning := some ("Load posted " ++ numToString ageMinutes ++
        " minutes ago - may be stale") }
  else
    { ageMinutes := ageMinutes }

/-- Raw JSON carrier object as read from the FMCSA response
(`data.content.carrier`): only the four fields the source consumes, each
possibly absent (`none` models `undefined`); `outOfServiceDate` is tested
with `!== null` so it needs the three-state `JsonNullable`. -/
structure RawCarrier where
  legalName : Option String := none
  allowedToOperate : Option String := none
  outOfServiceDate : JsonNullable := JsonNullable.undef
  carrierOperation : Option String := none
deriving DecidableEq, Repr

/-- JSON object `data.content`; its `carrier` field may be absent/falsy. -/
structure FMCSAContent where
  carrier : Option RawCarrier := none
deriving DecidableEq, Repr

/-- JSON response body `response.data`; its `content` field may be
absent/falsy. -/
structure FMCSAData where
  content : Option FMCSAContent := none
deriving DecidableEq, Repr

/-- Outcome of the single axios GET issued by `verifyFMCSA`:
either a success carrying `response.data` (`none` models a falsy body),
an axios error carrying its `code` and `response?.status`, or a non-axios
exception thrown inside the try block. -/
inductive FMCSAOutcome where
  | success (data : Option FMCSAData)
  | axiosError (code : Option String) (respStatus : Option Nat)
  | otherError
deriving DecidableEq, Repr

/-- Construction of the parsed `FMCSACarrier` from the raw JSON carrier
(the `carrierInfo` object literal inside `verifyFMCSA`).  Note
`out_of_service` is `carrier.outOfServiceDate !== null`, so an absent
field also counts as out of service. -/
def carrierInfoOf (mcNumber : String) (carrier : RawCarrier) : FMCSACarrier :=
  { mc_number := mcNumber
    legal_name := jsOr carrier.legalName "Unknown"
    status := jsOr carrier.allowedToOperate "UNKNOWN"
    allowed_to_operate := carrier.allowedToOperate == some "Y"
    out_of_service := carrier.outOfServiceDate != JsonNullable.null
    carrier_operation := jsOr carrier.carrierOperation "Unknown" }

/-- FMCSA MC number validation (`verifyFMCSA`).  `apiKey` is
`process.env.FMCSA_API_KEY`; `outcome` is what the axios GET would deliver
if issued (no request is made when the key is falsy). -/
def verifyFMCSA (apiKey : Option String) (mcNumber : String)
    (outcome : FMCSAOutcome) : FMCSACheckResult :=
  if jsFalsyStr apiKey then
    { status := "SKIPPED"
      warning := some "FMCSA validation unavailable (API key not configured)" }
  else
    match outcome with
    | FMCSAOutcome.success data =>
      match data with
      | none =>
        { status := "NOT_FOUND"
          reject := true
          reason := some ("MC number " ++ mcNumber ++ " not found in FMCSA database") }
      | some d =>
        match d.content with
        | none =>
          { status := "NOT_FOUND"
            reject := true
            reason := some ("MC number " ++ mcNumber ++ " not found in FMCSA database") }
        | some content =>
          match content.carrier with
          | none =>
            { status := "NOT_FOUND"
              reject := true
              reason := some ("MC number " ++ mcNumber ++ " has no carrier data") }
          | some carrier =>
            let carrierInfo := carrierInfoOf mcNumber carrier
            if !carrierInfo.allowed_to_operate then
              { status := "NOT_AUTHORIZED"
                carrier := some carrierInfo
                reject := true
                reason := some ("Carrier " ++ mcNumber ++ " (" ++ carrierInfo.legal_name ++
                  ") not authorized to operate") }
            else if carrierInfo.out_of_service then
              { status := "OUT_OF_SERVICE"
                carrier := some carrierInfo
                reject := true
                reason := some ("Carrier " ++ mcNumber ++ " (" ++ carrierInfo.legal_name ++
                  ") is out of service") }
            else
              { status := "ACTIVE"
                carrier := some carrierInfo }
    | FMCSAOutcome.axiosError code respStatus =>
      if code == some "ECONNABORTED" || code == some "ETIMEDOUT" then
        { status := "TIMEOUT"
          warning := some "FMCSA API timeout - broker verification incomplete" }
      else if respStatus == some 404 then
        { status := "NOT_FOUND"
          reject := true
          reason := some ("MC number " ++ mcNumber ++ " not found in FMCSA database") }
      else
        { status := "ERROR"
          warning := some "FMCSA API error - broker verification incomplete" }
    | FMCSAOutcome.otherError =>
      { status := "ERROR"
        warning := some "FMCSA API error - broker verification incomplete" }


/-- Ambient environment of one `verifyLoad` call: the current time
(`Date.now()`), the configured FMCSA credential, the outcome the single
FMCSA network request would deliver, and optional injected exception
messages modelling a hypothetical unexpected throw from each check (the
defensive case the engine's try/catch exists for; default `none`).
`outerExn` models an exception escaping `verifyLoad` itself, caught by the
per-item handler of the batch endpoint. -/
structure VerifyEnv where
  now : Int
  fmcsaApiKey : Option String := none
  fmcsaOutcome : FMCSAOutcome := FMCSAOutcome.otherError
  creditExn : Option String := none
  fmcsaExn : Option String := none
  freshnessExn : Option String := none
  outerExn : Option String := none
deriving DecidableEq, Repr

/-- The environment injects no exception into any check. -/
def VerifyEnv.noExn (env : VerifyEnv) : Prop :=
  env.creditExn = none ∧ env.fmcsaExn = none ∧ env.freshnessExn = none

instance (env : VerifyEnv) : Decidable env.noExn := by
  unfold VerifyEnv.noExn
  infer_instance

/-- Credit check step as seen by the engine: the pure check, or an
injected unexpected exception. -/
def runCredit (env : VerifyEnv) (score : Int) : Except String CreditCheckResult :=
  match env.creditExn with
  | some msg => Except.error msg
  | none => Except.ok (verifyCreditScore score)

/-- FMCSA check step as seen by the engine. -/
def runFMCSA (env : VerifyEnv) (mcNumber : String) : Except String FMCSACheckResult :=
  match env.fmcsaExn with
  | some msg => Except.error msg
  | none => Except.ok (verifyFMCSA env.fmcsaApiKey mcNumber env.fmcsaOutcome)

/-- Freshness check step as seen by the engine. -/
def runFreshness (env : VerifyEnv) (postedAt : Option Int) : Except String FreshnessCheckResult :=
  match env.freshnessExn with
  | some msg => Except.error msg
  | none => Except.ok (verifyLoadFreshness postedAt env.now)

/-- Decision builder `approve`. -/
def approve (metadata : MetadataBag) (now : Int) : VerificationResult :=
  { verification_status := VerificationStatus.APPROVED
    reasons := []
    verified_at := now
    metadata := metadata }

/-- Decision builder `reject`: a single reason. -/
def reject (reason : String) (metadata : MetadataBag) (now : Int) : VerificationResult :=
  { verification_status := VerificationStatus.REJECTED
    reasons := [reason]
    verified_at := now
    metadata := metadata }

/-- Decision builder `needsReview`. -/
def needsReview (reasons : List String) (metadata : MetadataBag) (now : Int) : VerificationResult :=
  { verification_status := VerificationStatus.NEEDS_REVIEW
    reasons := reasons
    verified_at := now
    metadata := metadata }

/-- The `if (check.warning) reasons.push(check.warning)` idiom. -/
def pushWarning (reasons : List String) (warning : Option String) : List String :=
  match warning with
  | some w => reasons ++ [w]
  | none => reasons

/-- The system-error reason built in the engine's catch block. -/
def systemErrorReason (msg : String) : String :=
  "Verification system error: " ++ msg

/-- Main verification function (`verifyLoad`): credit check, FMCSA check,
freshness check in order, short-circuiting on reject, accumulating
warnings; the surrounding try/catch converts any exception raised by a
check into a `NEEDS_REVIEW` result with the metadata accumulated so far. -/
def verifyLoad (load : LoadVerificationInput) (env : VerifyEnv) : VerificationResult :=
  let md0 : MetadataBag := {}
  match runCredit env load.credit_score with
  | Except.error e => needsReview [systemErrorReason e] md0 env.now
  | Except.ok creditCheck =>
    let md1 := { md0 with credit_score_check := some creditCheck.status }
    if creditCheck.reject then
      reject (creditCheck.reason.getD "") md1 env.now
    else
      let reasons0 := pushWarning [] creditCheck.warning
      match runFMCSA env load.broker_mc with
      | Except.error e => needsReview [systemErrorReason e] md1 env.now
      | Except.ok fmcsaCheck =>
        let md2 := { md1 with fmcsa_status := some fmcsaCheck.status }
        let md3 := match fmcsaCheck.carrier with
          | some c => { md2 with carrier_info := some c }
          | none => md2
        if fmcsaCheck.reject then
          reject (fmcsaCheck.reason.getD "") md3 env.now
        else
          let reasons1 := pushWarning reasons0 fmcsaCheck.warning
          match runFreshness env load.posted_at with
          | Except.error e => needsReview [systemErrorReason e] md3 env.now
          | Except.ok freshnessCheck =>
            let md4 := { md3 with load_age_minutes := some freshnessCheck.ageMinutes }
            if freshnessCheck.reject then
              reject (freshnessCheck.reason.getD "") md4 env.now
            else
              let reasons2 := pushWarning reasons1 freshnessCheck.warning
              if reasons2.length > 0 then
                needsReview reasons2 md4 env.now
              else
                approve md4 env.now

/-- One element of the batch endpoint's `results` array:
`{ load_id, ...result }` on success, or the fallback object (which has no
`metadata` key) when verifying that offer threw. -/
structure BatchItemResult where
  load_id : String
  verification_status : VerificationStatus
  reasons : List String
  verified_at : Int
  metadata : Option MetadataBag := none
deriving DecidableEq, Repr

/-- Per-offer step of the batch endpoint: its own try/catch around
`verifyLoad`, producing a `NEEDS_REVIEW` fallback when that one offer's
verification throws. -/
def verifyBatchItem (envOf : LoadVerificationInput → VerifyEnv)
    (load : LoadVerificationInput) : BatchItemResult :=
  match (envOf load).outerExn with
  | some msg =>
    { load_id := load.load_id
      verification_status := VerificationStatus.NEEDS_REVIEW
      reasons := ["Verification error: " ++ msg]
      verified_at := (envOf load).now }
  | none =>
    let result := verifyLoad load (envOf load)
    { load_id := load.load_id
      verification_status := result.verification_status
      reasons := result.reasons
      verified_at := result.verified_at
      metadata := some result.metadata }

/-- Batch verification (the `/api/verify/batch` handler's
`loads.map(...)` under `Promise.all`, which resolves in input order). -/
def verifyMany (envOf : LoadVerificationInput → VerifyEnv)
    (loads : List LoadVerificationInput) : List BatchItemResult :=
  loads.map (verifyBatchItem envOf)

/-- Concrete fixture: a carrier that is authorized and not out of service. -/
def activeCarrier : RawCarrier :=
  { legalName := some "Acme Trucking"
    allowedToOperate := some "Y"
    outOfServiceDate := JsonNullable.null
    carrierOperation := some "Interstate" }

/-- Concrete fixture: a successful FMCSA response carrying `activeCarrier`. -/
def activeOutcome : FMCSAOutcome :=
  FMCSAOutcome.success (some { content := some { carrier := some activeCarrier } })

/-- Concrete fixture: a clean load offer (score 85, posted 10 minutes before
`baseEnv.now`). -/
def baseLoad : LoadVerificationInput :=
  { load_id := "load-1"
    broker_name := "Test Logistics"
    broker_mc := "123456"
    credit_score := 85
    posted_at := some 0
    pickup_city := "Chicago"
    delivery_city := "Atlanta"
    rate := 2400
    equipment := "Dry Van" }

/-- Concrete fixture: environment with a configured key, an active-carrier
response, `now` ten minutes after `baseLoad.posted_at`, and no injected
exceptions. -/
def baseEnv : VerifyEnv :=
  { now := 600000
    fmcsaApiKey := some "key"
    fmcsaOutcome := activeOutcome }

/-- Unfolding of `verifyLoad` when no check throws: the pure three-check
cascade with short-circuit on reject and warning accumulation. -/
theorem verifyLoad_cascade (load : LoadVerificationInput) (env : VerifyEnv)
    (h1 : env.creditExn = none) (h2 : env.fmcsaExn = none)
    (h3 : env.freshnessExn = none) :
    verifyLoad load env =
      (let creditCheck := verifyCreditScore load.credit_score
       let md1 : MetadataBag := { credit_score_check := some creditCheck.status }
       if creditCheck.reject then
         reject (creditCheck.reason.getD "") md1 env.now
       else
         let reasons0 := pushWarning [] creditCheck.warning
         let fmcsaCheck := verifyFMCSA env.fmcsaApiKey load.broker_mc env.fmcsaOutcome
         let md2 := { md1 with fmcsa_status := some fmcsaCheck.status }
         let md3 := match fmcsaCheck.carrier with
           | some c => { md2 with carrier_info := some c }
           | none => md2
         if fmcsaCheck.reject then
           reject (fmcsaCheck.reason.getD "") md3 env.now
         else
           let reasons1 := pushWarning reasons0 fmcsaCheck.warning
           let freshnessCheck := verifyLoadFreshness load.posted_at env.now
           let md4 := { md3 with load_age_minutes := some freshnessCheck.ageMinutes }
           if freshnessCheck.reject then
             reject (freshnessCheck.reason.getD "") md4 env.now
           else
             let reasons2 := pushWarning reasons1 freshnessCheck.warning
             if reasons2.length > 0 then
               needsReview reasons2 md4 env.now
             else
               approve md4 env.now) := by
  simp only [verifyLoad, runCredit, runFMCSA, runFreshness, h1, h2, h3]

/-- C1: for every load offer (and every environment that injects no
exception), `verifyLoad` returns exactly one of the three statuses:
`REJECTED` iff some check rejected; otherwise `NEEDS_REVIEW` iff at least
one warning was accumulated; otherwise `APPROVED` with an empty reasons
list. -/
theorem verifyLoad_aggregation (load : LoadVerificationInput) (env : VerifyEnv)
    (h : env.noExn) :
    ((verifyLoad load env).verification_status = VerificationStatus.REJECTED ↔
      ((verifyCreditScore load.credit_score).reject = true ∨
       (verifyFMCSA env.fmcsaApiKey load.broker_mc env.fmcsaOutcome).reject = true ∨
       (verifyLoadFreshness load.posted_at env.now).reject = true)) ∧
    ((verifyLoad load env).verification_status = VerificationStatus.NEEDS_REVIEW ↔
      ((verifyCreditScore load.credit_score).reject = false ∧
       (verifyFMCSA env.fmcsaApiKey load.broker_mc env.fmcsaOutcome).reject = false ∧
       (verifyLoadFreshness load.posted_at env.now).reject = false ∧
       ((verifyCreditScore load.credit_score).warning ≠ none ∨
        (verifyFMCSA env.fmcsaApiKey load.broker_mc env.fmcsaOutcome).warning ≠ none ∨
        (verifyLoadFreshness load.posted_at env.now).warning ≠ none))) ∧
    ((verifyLoad load env).verification_status = VerificationStatus.APPROVED ↔
      ((verifyCreditScore load.credit_score).reject = false ∧
       (verifyFMCSA env.fmcsaApiKey load.broker_mc env.fmcsaOutcome).reject = false ∧
       (verifyLoadFreshness load.posted_at env.now).reject = false ∧
       (verifyCreditScore load.credit_score).warning = none ∧
       (verifyFMCSA env.fmcsaApiKey load.broker_mc env.fmcsaOutcome).warning = none ∧
       (verifyLoadFreshness load.posted_at env.now).warning = none)) ∧
    ((verifyLoad load env).verification_status = VerificationStatus.APPROVED →
      (verifyLoad load env).reasons = []) := by
  rw [verifyLoad_cascade load env h.1 h.2.1 h.2.2]
  cases hcr : (verifyCreditScore load.credit_score).reject <;>
    cases hfr : (verifyFMCSA env.fmcsaApiKey load.broker_mc env.fmcsaOutcome).reject <;>
      cases hgr : (verifyLoadFreshness load.posted_at env.now).reject <;>
        cases hcw : (verifyCreditScore load.credit_score).warning <;>
          cases hfw : (verifyFMCSA env.fmcsaApiKey load.broker_mc env.fmcsaOutcome).warning <;>
            cases hgw : (verifyLoadFreshness load.posted_at env.now).warning <;>
              simp_all [reject, needsReview, approve, pushWarning]

/-- Witness for C1: the clean fixture load is `APPROVED` with no reasons. -/
theorem verifyLoad_aggregation_witness :
    (verifyLoad baseLoad baseEnv).verification_status = VerificationStatus.APPROVED ∧
    (verifyLoad baseLoad baseEnv).reasons = [] := by
  refine ⟨by decide, ?_⟩
  exact (verifyLoad_aggregation baseLoad baseEnv ⟨rfl, rfl, rfl⟩).2.2.2 (by decide)

/-- Counterexample for C2: an unparseable `posted_at` timestamp does not
raise an exception and does not resolve to `NEEDS_REVIEW` with a
system-error reason — `new Date(...)` yields `NaN`, the `NaN` age fails
both threshold comparisons, the freshness check silently passes, and this
concrete load is `APPROVED` with an empty reasons list. -/
theorem verifyLoad_invalid_timestamp_counterexample :
    (verifyLoad { baseLoad with posted_at := none } baseEnv).verification_status =
      VerificationStatus.APPROVED ∧
    (verifyLoad { baseLoad with posted_at := none } baseEnv).verification_status ≠
      VerificationStatus.NEEDS_REVIEW ∧
    (verifyLoad { baseLoad with posted_at := none } baseEnv).reasons = [] := by
  decide

/-- C2 (amended): `verifyLoad` is a total function (it never propagates a
failure), and any unexpected exception raised by a check resolves to
`NEEDS_REVIEW` carrying the single system-error reason — never to
`REJECTED`.  However, an unparseable `posted_at` raises no exception: the
freshness check returns a bare `NaN` age with neither reject nor warning,
so invalid timestamps pass silently instead of degrading to
`NEEDS_REVIEW`. -/
theorem verifyLoad_never_throws (load : LoadVerificationInput) (env : VerifyEnv)
    (msg : String) :
    (env.creditExn = some msg →
      verifyLoad load env = needsReview [systemErrorReason msg] {} env.now ∧
      (verifyLoad load env).verification_status ≠ VerificationStatus.REJECTED) ∧
    (env.creditExn = none →
     (verifyCreditScore load.credit_score).reject = false →
     env.fmcsaExn = some msg →
      (verifyLoad load env).verification_status = VerificationStatus.NEEDS_REVIEW ∧
      (verifyLoad load env).reasons = [systemErrorReason msg]) ∧
    (env.creditExn = none → env.fmcsaExn = none →
     (verifyCreditScore load.credit_score).reject = false →
     (verifyFMCSA env.fmcsaApiKey load.broker_mc env.fmcsaOutcome).reject = false →
     env.freshnessExn = some msg →
      (verifyLoad load env).verification_status = VerificationStatus.NEEDS_REVIEW ∧
      (verifyLoad load env).reasons = [systemErrorReason msg]) ∧
    (∀ now0 : Int, verifyLoadFreshness none now0 = { ageMinutes := none }) := by
  refine ⟨?_, ?_, ?_, ?_⟩
  · intro h1
    constructor
    · simp [verifyLoad, runCredit, h1]
    · simp [verifyLoad, runCredit, h1, needsReview]
  · intro h1 hcr h2
    constructor <;>
      simp [verifyLoad, runCredit, runFMCSA, h1, hcr, h2, needsReview]
  · intro h1 h2 hcr hfr h3
    constructor <;>
      simp [verifyLoad, runCredit, runFMCSA, runFreshness, h1, h2, hcr, hfr, h3,
        needsReview]
  · intro now0
    simp [verifyLoadFreshness, nanGt]

/-- Witness for the amended C2: an injected credit-check exception on the
fixture load yields the `NEEDS_REVIEW` system-error result, and the
freshness check on an unparseable timestamp is the bare `NaN` record. -/
theorem verifyLoad_never_throws_witness :
    verifyLoad baseLoad { baseEnv with creditExn := some "boom" } =
      needsReview [systemErrorReason "boom"] {} 600000 ∧
    verifyLoadFreshness none 600000 = { ageMinutes := none } :=
  ⟨(verifyLoad_never_throws baseLoad { baseEnv with creditExn := some "boom" } "boom").1
      rfl |>.1,
   (verifyLoad_never_throws baseLoad { baseEnv with creditExn := some "boom" } "boom").2.2.2
      600000⟩

/-- C3: when the credit score check rejects, `verifyLoad` returns
`REJECTED` immediately with exactly that one reason and only the credit
entry in the metadata bag; the result is unchanged under any FMCSA
credential, any FMCSA network outcome, and any `posted_at`, i.e., the
registry lookup and the freshness check contribute nothing (they are never
evaluated). -/
theorem verifyLoad_credit_short_circuit (load : LoadVerificationInput)
    (env : VerifyEnv) (h : env.creditExn = none)
    (hr : (verifyCreditScore load.credit_score).reject = true) :
    verifyLoad load env =
      reject ((verifyCreditScore load.credit_score).reason.getD "")
        { credit_score_check := some (verifyCreditScore load.credit_score).status }
        env.now ∧
    (∀ key outcome e1 e2,
      verifyLoad load
        { env with fmcsaApiKey := key, fmcsaOutcome := outcome,
                   fmcsaExn := e1, freshnessExn := e2 } =
      verifyLoad load env) ∧
    (∀ p, verifyLoad { load with posted_at := p } env = verifyLoad load env) := by
  have hmain : ∀ env2 : VerifyEnv, env2.creditExn = none → env2.now = env.now →
      ∀ load2 : LoadVerificationInput, load2.credit_score = load.credit_score →
      verifyLoad load2 env2 =
        reject ((verifyCreditScore load.credit_score).reason.getD "")
          { credit_score_check := some (verifyCreditScore load.credit_score).status }
          env.now := by
    intro env2 h2 hnow load2 hs
    simp [verifyLoad, runCredit, h2, hs, hr, hnow]
  refine ⟨hmain env h rfl load rfl, ?_, ?_⟩
  · intro key outcome e1 e2
    rw [hmain { env with fmcsaApiKey := key, fmcsaOutcome := outcome,
                         fmcsaExn := e1, freshnessExn := e2 } h rfl load rfl,
      hmain env h rfl load rfl]
  · intro p
    rw [hmain env h rfl { load with posted_at := p } rfl, hmain env h rfl load rfl]

/-- Witness for C3: the fixture load with score 81 is rejected with the
single credit reason, with the `REJECTED` status and only the credit
metadata entry. -/
theorem verifyLoad_credit_short_circuit_witness :
    verifyLoad { baseLoad with credit_score := 81 } baseEnv =
      reject ((verifyCreditScore 81).reason.getD "")
        { credit_score_check := some (verifyCreditScore 81).status } 600000 :=
  (verifyLoad_credit_short_circuit { baseLoad with credit_score := 81 } baseEnv
    rfl (by decide)).1

/-- Helper: when the credit check rejects and no exception is injected
into it, `verifyLoad` is the single-reason credit rejection. -/
theorem creditReject_result (load : LoadVerificationInput) (env : VerifyEnv)
    (h : env.creditExn = none)
    (hr : (verifyCreditScore load.credit_score).reject = true) :
    verifyLoad load env =
      reject ((verifyCreditScore load.credit_score).reason.getD "")
        { credit_score_check := some (verifyCreditScore load.credit_score).status }
        env.now := by
  simp [verifyLoad, runCredit, h, hr]

/-- C4: for every credit score `s`: if `s < CREDIT_SCORE_MIN` (82) the
credit check rejects with the below-minimum reason and `verifyLoad`
returns `REJECTED` with exactly that credit reason regardless of all
other fields; if `s > CREDIT_SCORE_MAX` (97) the credit check warns and
never rejects; if `MIN ≤ s ≤ MAX` it neither rejects nor warns. -/
theorem verifyCreditScore_thresholds (s : Int) (load : LoadVerificationInput)
    (env : VerifyEnv) (hload : load.credit_score = s)
    (henv : env.creditExn = none) :
    (s < CONFIG.CREDIT_SCORE_MIN →
      (verifyCreditScore s).reject = true ∧
      (verifyCreditScore s).reason = some ("Credit score " ++ toString s ++
        " below minimum threshold (" ++ toString CONFIG.CREDIT_SCORE_MIN ++ ")") ∧
      (verifyLoad load env).verification_status = VerificationStatus.REJECTED ∧
      (verifyLoad load env).reasons = ["Credit score " ++ toString s ++
        " below minimum threshold (" ++ toString CONFIG.CREDIT_SCORE_MIN ++ ")"]) ∧
    (s > CONFIG.CREDIT_SCORE_MAX →
      (verifyCreditScore s).reject = false ∧
      (verifyCreditScore s).warning = some ("Credit score " ++ toString s ++
        " unusually high - may indicate fake/manipulated score")) ∧
    (CONFIG.CREDIT_SCORE_MIN ≤ s ∧ s ≤ CONFIG.CREDIT_SCORE_MAX →
      (verifyCreditScore s).reject = false ∧
      (verifyCreditScore s).warning = none) := by
  refine ⟨?_, ?_, ?_⟩
  · intro hlt
    have hrej : (verifyCreditScore s).reject = true := by
      simp [verifyCreditScore, hlt]
    have hmain := creditReject_result load env henv (by rw [hload]; exact hrej)
    rw [hload] at hmain
    refine ⟨hrej, by simp [verifyCreditScore, hlt], ?_, ?_⟩
    · rw [hmain]; rfl
    · rw [hmain]
      simp [reject, verifyCreditScore, hlt]
  · intro hgt
    have hnlt : ¬ s < CONFIG.CREDIT_SCORE_MIN := by
      simp only [CONFIG.CREDIT_SCORE_MIN, CONFIG.CREDIT_SCORE_MAX] at hgt ⊢
      omega
    constructor <;> simp [verifyCreditScore, hnlt, hgt]
  · intro hin
    have hnlt : ¬ s < CONFIG.CREDIT_SCORE_MIN := by omega
    have hngt : ¬ s > CONFIG.CREDIT_SCORE_MAX := by omega
    constructor <;> simp [verifyCreditScore, hnlt, hngt]

/-- Witness for C4: scores 81, 98 and 85 land in the three branches. -/
theorem verifyCreditScore_thresholds_witness :
    ((verifyCreditScore 81).reject = true ∧
      (verifyLoad { baseLoad with credit_score := 81 } baseEnv).verification_status =
        VerificationStatus.REJECTED) ∧
    ((verifyCreditScore 98).reject = false ∧
      (verifyCreditScore 98).warning ≠ none) ∧
    ((verifyCreditScore 85).reject = false ∧
      (verifyCreditScore 85).warning = none) := by
  have h81 := (verifyCreditScore_thresholds 81 { baseLoad with credit_score := 81 }
    baseEnv rfl rfl).1 (by decide)
  have h98 := (verifyCreditScore_thresholds 98 { baseLoad with credit_score := 98 }
    baseEnv rfl rfl).2.1 (by decide)
  have h85 := (verifyCreditScore_thresholds 85 baseLoad baseEnv rfl rfl).2.2
    ⟨by decide, by decide⟩
  exact ⟨⟨h81.1, h81.2.2.1⟩, ⟨h98.1, by rw [h98.2]; simp⟩, h85⟩

/-- C5: a missing (falsy) FMCSA credential yields the `SKIPPED` warning
outcome and a connection/deadline timeout yields the `TIMEOUT` warning
outcome — neither rejects; and at the engine level, any non-rejecting
warning outcome of the FMCSA check (in particular `SKIPPED` or `TIMEOUT`)
leads to `NEEDS_REVIEW`, never `REJECTED`, when the other checks do not
reject (the model is a total function, so no failure is ever thrown). -/
theorem verifyFMCSA_degraded_modes (key : Option String) (mc : String)
    (outcome : FMCSAOutcome) (code : Option String) (respStatus : Option Nat)
    (load : LoadVerificationInput) (env : VerifyEnv) :
    (jsFalsyStr key = true →
      verifyFMCSA key mc outcome =
        { status := "SKIPPED"
          warning := some "FMCSA validation unavailable (API key not configured)" }) ∧
    (jsFalsyStr key = false →
     (code = some "ECONNABORTED" ∨ code = some "ETIMEDOUT") →
      verifyFMCSA key mc (FMCSAOutcome.axiosError code respStatus) =
        { status := "TIMEOUT"
          warning := some "FMCSA API timeout - broker verification incomplete" }) ∧
    (env.noExn →
     (verifyCreditScore load.credit_score).reject = false →
     (verifyLoadFreshness load.posted_at env.now).reject = false →
     (verifyFMCSA env.fmcsaApiKey load.broker_mc env.fmcsaOutcome).reject = false →
     (verifyFMCSA env.fmcsaApiKey load.broker_mc env.fmcsaOutcome).warning ≠ none →
      (verifyLoad load env).verification_status = VerificationStatus.NEEDS_REVIEW ∧
      (verifyLoad load env).verification_status ≠ VerificationStatus.REJECTED) := by
  refine ⟨?_, ?_, ?_⟩
  · intro hk
    simp [verifyFMCSA, hk]
  · intro hk hcode
    rcases hcode with hc | hc <;> simp [verifyFMCSA, hk, hc]
  · intro h hcr hgr hfr hfw
    rw [verifyLoad_cascade load env h.1 h.2.1 h.2.2]
    cases hcw : (verifyCreditScore load.credit_score).warning <;>
      cases hfwv : (verifyFMCSA env.fmcsaApiKey load.broker_mc env.fmcsaOutcome).warning <;>
        cases hgw : (verifyLoadFreshness load.posted_at env.now).warning <;>
          simp_all [reject, needsReview, approve, pushWarning]

/-- Witness for C5: on the fixture load with no configured credential the
FMCSA check is skipped with a warning and the result is `NEEDS_REVIEW`;
with a credential and a timed-out request the check warns with `TIMEOUT`
and the result is `NEEDS_REVIEW`. -/
theorem verifyFMCSA_degraded_modes_witness :
    (verifyFMCSA none "123456" activeOutcome).reject = false ∧
    (verifyLoad baseLoad { baseEnv with fmcsaApiKey := none }).verification_status =
      VerificationStatus.NEEDS_REVIEW ∧
    (verifyFMCSA (some "key") "123456"
      (FMCSAOutcome.axiosError (some "ECONNABORTED") none)).reject = false ∧
    (verifyLoad baseLoad { baseEnv with
        fmcsaOutcome := FMCSAOutcome.axiosError (some "ECONNABORTED") none
      }).verification_status = VerificationStatus.NEEDS_REVIEW := by
  have hskip := (verifyFMCSA_degraded_modes none "123456" activeOutcome none none
    baseLoad { baseEnv with fmcsaApiKey := none }).1 rfl
  have heng1 := (verifyFMCSA_degraded_modes none "123456" activeOutcome none none
    baseLoad { baseEnv with fmcsaApiKey := none }).2.2 ⟨rfl, rfl, rfl⟩
    (by decide) (by decide) (by decide) (by decide)
  have htime := (verifyFMCSA_degraded_modes (some "key") "123456" activeOutcome
    (some "ECONNABORTED") none baseLoad baseEnv).2.1 (by decide) (Or.inl rfl)
  have heng2 := (verifyFMCSA_degraded_modes (some "key") "123456" activeOutcome
    (some "ECONNABORTED") none baseLoad
    { baseEnv with fmcsaOutcome := FMCSAOutcome.axiosError (some "ECONNABORTED") none
    }).2.2 ⟨rfl, rfl, rfl⟩ (by decide) (by decide) (by decide) (by decide)
  refine ⟨by rw [hskip], heng1.1, by rw [htime], heng2.1⟩


/-- C6: the freshness check computes
`ageMinutes = floor((now - postedAt) / 60000 ms)`; it rejects exactly when
`ageMinutes > LOAD_FRESHNESS_REJECT_MINUTES` (60), warns exactly when
`ageMinutes` exceeds `LOAD_FRESHNESS_WARNING_MINUTES` (30) without
exceeding the reject threshold, and passes otherwise; negative ages pass;
and the engine attaches `ageMinutes` to the metadata bag regardless of
the check's disposition (also when it rejects). -/
theorem verifyLoadFreshness_thresholds (t now : Int)
    (load : LoadVerificationInput) (env : VerifyEnv) :
    ((verifyLoadFreshness (some t) now).ageMinutes =
      some (Int.fdiv (now - t) (1000 * 60))) ∧
    ((verifyLoadFreshness (some t) now).reject = true ↔
      Int.fdiv (now - t) (1000 * 60) > CONFIG.LOAD_FRESHNESS_REJECT_MINUTES) ∧
    ((verifyLoadFreshness (some t) now).warning ≠ none ↔
      (Int.fdiv (now - t) (1000 * 60) > CONFIG.LOAD_FRESHNESS_WARNING_MINUTES ∧
       Int.fdiv (now - t) (1000 * 60) ≤ CONFIG.LOAD_FRESHNESS_REJECT_MINUTES)) ∧
    (Int.fdiv (now - t) (1000 * 60) < 0 →
      (verifyLoadFreshness (some t) now).reject = false ∧
      (verifyLoadFreshness (some t) now).warning = none) ∧
    (env.noExn →
     (verifyCreditScore load.credit_score).reject = false →
     (verifyFMCSA env.fmcsaApiKey load.broker_mc env.fmcsaOutcome).reject = false →
      (verifyLoad load env).metadata.load_age_minutes =
        some (verifyLoadFreshness load.posted_at env.now).ageMinutes) := by
  refine ⟨?_, ?_, ?_, ?_, ?_⟩
  · by_cases h60 : (60 : Int) < Int.fdiv (now - t) 60000 <;>
      by_cases h30 : (30 : Int) < Int.fdiv (now - t) 60000 <;>
        simp [verifyLoadFreshness, nanGt, CONFIG.LOAD_FRESHNESS_REJECT_MINUTES,
          CONFIG.LOAD_FRESHNESS_WARNING_MINUTES, h60, h30]
  · by_cases h60 : (60 : Int) < Int.fdiv (now - t) 60000 <;>
      by_cases h30 : (30 : Int) < Int.fdiv (now - t) 60000 <;>
        simp [verifyLoadFreshness, nanGt, CONFIG.LOAD_FRESHNESS_REJECT_MINUTES,
          CONFIG.LOAD_FRESHNESS_WARNING_MINUTES, h60, h30]
  · by_cases h60 : (60 : Int) < Int.fdiv (now - t) 60000 <;>
      by_cases h30 : (30 : Int) < Int.fdiv (now - t) 60000 <;>
        simp [verifyLoadFreshness, nanGt, CONFIG.LOAD_FRESHNESS_REJECT_MINUTES,
          CONFIG.LOAD_FRESHNESS_WARNING_MINUTES, h60, h30] <;>
          omega
  · intro hneg
    norm_num at hneg
    have h60 : ¬ (60 : Int) < Int.fdiv (now - t) 60000 := by omega
    have h30 : ¬ (30 : Int) < Int.fdiv (now - t) 60000 := by omega
    constructor <;>
      simp [verifyLoadFreshness, nanGt, CONFIG.LOAD_FRESHNESS_REJECT_MINUTES,
        CONFIG.LOAD_FRESHNESS_WARNING_MINUTES, h60, h30]
  · intro h hcr hfr
    rw [verifyLoad_cascade load env h.1 h.2.1 h.2.2]
    cases hgr : (verifyLoadFreshness load.posted_at env.now).reject <;>
      cases hcw : (verifyCreditScore load.credit_score).warning <;>
        cases hfw : (verifyFMCSA env.fmcsaApiKey load.broker_mc env.fmcsaOutcome).warning <;>
          cases hgw : (verifyLoadFreshness load.posted_at env.now).warning <;>
            cases hfc : (verifyFMCSA env.fmcsaApiKey load.broker_mc env.fmcsaOutcome).carrier <;>
              simp_all [reject, needsReview, approve, pushWarning]

/-- Witness for C6: a load posted 90 minutes ago rejects with age 90 and
the engine still records the age in the metadata; one posted 45 minutes
ago warns; one posted 10 minutes ago passes; a posting 5 minutes in the
future passes with age -5. -/
theorem verifyLoadFreshness_thresholds_witness :
    (verifyLoadFreshness (some 0) 5400000).reject = true ∧
    (verifyLoadFreshness (some 0) 2700000).warning ≠ none ∧
    (verifyLoadFreshness (some 0) 600000).reject = false ∧
    (verifyLoadFreshness (some 0) 600000).warning = none ∧
    ((verifyLoadFreshness (some 300000) 0).reject = false ∧
     (verifyLoadFreshness (some 300000) 0).warning = none) ∧
    (verifyLoad { baseLoad with posted_at := some (-4800000) } baseEnv
      ).metadata.load_age_minutes = some (some 90) := by
  have h90 := (verifyLoadFreshness_thresholds 0 5400000 baseLoad baseEnv).2.1.mpr
    (by decide)
  have h45 := (verifyLoadFreshness_thresholds 0 2700000 baseLoad baseEnv).2.2.1.mpr
    ⟨by decide, by decide⟩
  have hneg := (verifyLoadFreshness_thresholds 300000 0 baseLoad baseEnv).2.2.2.1
    (by decide)
  have hmeta := (verifyLoadFreshness_thresholds 0 600000
    { baseLoad with posted_at := some (-4800000) } baseEnv).2.2.2.2
    ⟨rfl, rfl, rfl⟩ (by decide) (by decide)
  refine ⟨h90, h45, by decide, by decide, hneg, ?_⟩
  rw [hmeta]
  decide

/-- C7: with a configured credential, the registry lookup classifies
exactly as: falsy body, missing `content` or missing carrier record →
`NOT_FOUND` with reject disposition; record present but the authorization
flag not the allowed sentinel `Y` → `NOT_AUTHORIZED`, reject, carrying the
parsed record; record present (authorized) with the out-of-service flag
set → `OUT_OF_SERVICE`, reject, carrying the record; otherwise `ACTIVE`,
pass, carrying the record; an upstream 404 is `NOT_FOUND` with reject
disposition; and any other upstream or client error (other than the
connection/deadline timeout, which C5 covers) yields the generic `ERROR`
outcome with warning disposition. -/
theorem verifyFMCSA_classification (key : Option String) (mc : String)
    (hk : jsFalsyStr key = false) :
    (verifyFMCSA key mc (FMCSAOutcome.success none) =
      { status := "NOT_FOUND", reject := true,
        reason := some ("MC number " ++ mc ++ " not found in FMCSA database") }) ∧
    (verifyFMCSA key mc (FMCSAOutcome.success (some { content := none })) =
      { status := "NOT_FOUND", reject := true,
        reason := some ("MC number " ++ mc ++ " not found in FMCSA database") }) ∧
    (verifyFMCSA key mc
        (FMCSAOutcome.success (some { content := some { carrier := none } })) =
      { status := "NOT_FOUND", reject := true,
        reason := some ("MC number " ++ mc ++ " has no carrier data") }) ∧
    (∀ c : RawCarrier, c.allowedToOperate ≠ some "Y" →
      verifyFMCSA key mc
          (FMCSAOutcome.success (some { content := some { carrier := some c } })) =
        { status := "NOT_AUTHORIZED", carrier := some (carrierInfoOf mc c),
          reject := true,
          reason := some ("Carrier " ++ mc ++ " (" ++ (carrierInfoOf mc c).legal_name ++
            ") not authorized to operate") }) ∧
    (∀ c : RawCarrier, c.allowedToOperate = some "Y" →
     c.outOfServiceDate ≠ JsonNullable.null →
      verifyFMCSA key mc
          (FMCSAOutcome.success (some { content := some { carrier := some c } })) =
        { status := "OUT_OF_SERVICE", carrier := some (carrierInfoOf mc c),
          reject := true,
          reason := some ("Carrier " ++ mc ++ " (" ++ (carrierInfoOf mc c).legal_name ++
            ") is out of service") }) ∧
    (∀ c : RawCarrier, c.allowedToOperate = some "Y" →
     c.outOfServiceDate = JsonNullable.null →
      verifyFMCSA key mc
          (FMCSAOutcome.success (some { content := some { carrier := some c } })) =
        { status := "ACTIVE", carrier := some (carrierInfoOf mc c) }) ∧
    (∀ code : Option String, ∀ respStatus : Option Nat,
     ¬(code = some "ECONNABORTED" ∨ code = some "ETIMEDOUT") →
     respStatus = some 404 →
      verifyFMCSA key mc (FMCSAOutcome.axiosError code respStatus) =
        { status := "NOT_FOUND", reject := true,
          reason := some ("MC number " ++ mc ++ " not found in FMCSA database") }) ∧
    (∀ code : Option String, ∀ respStatus : Option Nat,
     ¬(code = some "ECONNABORTED" ∨ code = some "ETIMEDOUT") →
     respStatus ≠ some 404 →
      verifyFMCSA key mc (FMCSAOutcome.axiosError code respStatus) =
        { status := "ERROR",
          warning := some "FMCSA API error - broker verification incomplete" }) ∧
    (verifyFMCSA key mc FMCSAOutcome.otherError =
      { status := "ERROR",
        warning := some "FMCSA API error - broker verification incomplete" }) := by
  refine ⟨?_, ?_, ?_, ?_, ?_, ?_, ?_, ?_, ?_⟩
  · simp [verifyFMCSA, hk]
  · simp [verifyFMCSA, hk]
  · simp [verifyFMCSA, hk]
  · intro c hna
    simp [verifyFMCSA, hk, carrierInfoOf, hna]
  · intro c hY hoos
    simp [verifyFMCSA, hk, carrierInfoOf, hY, hoos]
  · intro c hY hoos
    simp [verifyFMCSA, hk, carrierInfoOf, hY, hoos]
  · intro code respStatus hcode h404
    push_neg at hcode
    simp [verifyFMCSA, hk, hcode.1, hcode.2, h404]
  · intro code respStatus hcode h404
    push_neg at hcode
    simp [verifyFMCSA, hk, hcode.1, hcode.2, h404]
  · simp [verifyFMCSA, hk]

/-- Concrete fixture: the active carrier with its authorization flag set
to `N` instead of the allowed sentinel. -/
def notAuthorizedCarrier : RawCarrier :=
  { activeCarrier with allowedToOperate := some "N" }

/-- Witness for C7: with the fixture key, a response whose carrier has
`allowedToOperate` set to `N` is `NOT_AUTHORIZED` and rejecting, and a
plain 500-style axios error is the warning `ERROR` outcome. -/
theorem verifyFMCSA_classification_witness :
    verifyFMCSA (some "key") "123456"
      (FMCSAOutcome.success (some { content := some { carrier := some notAuthorizedCarrier } })) =
      { status := "NOT_AUTHORIZED"
        carrier := some (carrierInfoOf "123456" notAuthorizedCarrier)
        reject := true
        reason := some ("Carrier 123456 (Acme Trucking) not authorized to operate") } ∧
    verifyFMCSA (some "key") "123456"
      (FMCSAOutcome.axiosError none (some 500)) =
      { status := "ERROR"
        warning := some "FMCSA API error - broker verification incomplete" } := by
  have h1 := (verifyFMCSA_classification (some "key") "123456" (by decide)).2.2.2.1
    notAuthorizedCarrier (by decide)
  have h2 := (verifyFMCSA_classification (some "key") "123456"
    (by decide)).2.2.2.2.2.2.2.1 none (some 500) (by simp) (by simp)
  constructor
  · rw [h1]
    decide
  · exact h2

/-- C9: on a successful registry response whose carrier record lacks the
`outOfServiceDate` field entirely (`undefined`, not `null`), the lookup
computes `out_of_service = (outOfServiceDate !== null) = true` and rejects
with the `OUT_OF_SERVICE` reason even when the authorization flag is the
allowed sentinel `Y`. -/
theorem verifyFMCSA_undefined_oos_rejects (key : Option String) (mc : String)
    (c : RawCarrier) (hk : jsFalsyStr key = false)
    (hY : c.allowedToOperate = some "Y")
    (hU : c.outOfServiceDate = JsonNullable.undef) :
    (carrierInfoOf mc c).allowed_to_operate = true ∧
    (carrierInfoOf mc c).out_of_service = true ∧
    verifyFMCSA key mc
        (FMCSAOutcome.success (some { content := some { carrier := some c } })) =
      { status := "OUT_OF_SERVICE", carrier := some (carrierInfoOf mc c),
        reject := true,
        reason := some ("Carrier " ++ mc ++ " (" ++ (carrierInfoOf mc c).legal_name ++
          ") is out of service") } := by
  refine ⟨?_, ?_, ?_⟩
  · simp [carrierInfoOf, hY]
  · simp [carrierInfoOf, hU]
  · simp [verifyFMCSA, hk, carrierInfoOf, hY, hU]

/-- Concrete fixture: an authorized carrier whose `outOfServiceDate` field
is absent from the JSON record. -/
def undefOosCarrier : RawCarrier :=
  { activeCarrier with outOfServiceDate := JsonNullable.undef }

/-- Witness for C9: the fixture carrier with `outOfServiceDate` absent is
rejected as `OUT_OF_SERVICE` despite `allowedToOperate` being `Y`. -/
theorem verifyFMCSA_undefined_oos_rejects_witness :
    (verifyFMCSA (some "key") "123456"
      (FMCSAOutcome.success (some { content := some { carrier := some undefOosCarrier } }))).status =
      "OUT_OF_SERVICE" ∧
    (verifyFMCSA (some "key") "123456"
      (FMCSAOutcome.success (some { content := some { carrier := some undefOosCarrier } }))).reject =
      true := by
  have h := (verifyFMCSA_undefined_oos_rejects (some "key") "123456" undefOosCarrier
    (by decide) rfl rfl).2.2
  rw [h]
  exact ⟨rfl, rfl⟩

/-- C10: warning reasons accumulated by earlier checks are discarded when
a later check rejects — the `reject` builder replaces the accumulator with
the single reject reason: if the FMCSA check rejects after the credit
check did not, the reasons list is exactly the FMCSA reason; if the
freshness check rejects after neither earlier check did, the reasons list
is exactly the freshness reason, whatever warnings were accumulated. -/
theorem verifyLoad_warnings_discarded (load : LoadVerificationInput)
    (env : VerifyEnv) (h : env.noExn)
    (hcr : (verifyCreditScore load.credit_score).reject = false) :
    ((verifyFMCSA env.fmcsaApiKey load.broker_mc env.fmcsaOutcome).reject = true →
      (verifyLoad load env).reasons =
        [(verifyFMCSA env.fmcsaApiKey load.broker_mc env.fmcsaOutcome).reason.getD ""]) ∧
    ((verifyFMCSA env.fmcsaApiKey load.broker_mc env.fmcsaOutcome).reject = false →
     (verifyLoadFreshness load.posted_at env.now).reject = true →
      (verifyLoad load env).reasons =
        [(verifyLoadFreshness load.posted_at env.now).reason.getD ""]) := by
  rw [verifyLoad_cascade load env h.1 h.2.1 h.2.2]
  constructor
  · intro hfr
    cases hfc : (verifyFMCSA env.fmcsaApiKey load.broker_mc env.fmcsaOutcome).carrier <;>
      simp_all [reject, needsReview, approve, pushWarning]
  · intro hfr hgr
    cases hfc : (verifyFMCSA env.fmcsaApiKey load.broker_mc env.fmcsaOutcome).carrier <;>
      simp_all [reject, needsReview, approve, pushWarning]

/-- Witness for C10: a suspiciously high score (98, which warns) followed
by a 90-minute-old posting (which rejects) produces exactly the single
staleness reason; the credit warning is discarded. -/
theorem verifyLoad_warnings_discarded_witness :
    (verifyLoad { baseLoad with credit_score := 98, posted_at := some (-4800000) }
      baseEnv).reasons =
      [(verifyLoadFreshness (some (-4800000)) 600000).reason.getD ""] :=
  (verifyLoad_warnings_discarded
    { baseLoad with credit_score := 98, posted_at := some (-4800000) } baseEnv
    ⟨rfl, rfl, rfl⟩ (by decide)).2 (by decide) (by decide)

/-- C8: the batch endpoint returns one result per input offer, tagged with
its offer id, in the same order as the input list; each item is a function
of its own offer alone, so an unexpected exception while verifying one
offer leaves every sibling's result unchanged, and the failing offer
independently resolves to the `NEEDS_REVIEW` fallback (which carries no
metadata key). -/
theorem verifyMany_batch (envOf : LoadVerificationInput → VerifyEnv)
    (loads : List LoadVerificationInput) :
    (verifyMany envOf loads).length = loads.length ∧
    (∀ i : Nat, ∀ h1 : i < loads.length, ∀ h2 : i < (verifyMany envOf loads).length,
      (verifyMany envOf loads).get ⟨i, h2⟩ = verifyBatchItem envOf (loads.get ⟨i, h1⟩)) ∧
    (∀ i : Nat, ∀ h1 : i < loads.length, ∀ h2 : i < (verifyMany envOf loads).length,
      ((verifyMany envOf loads).get ⟨i, h2⟩).load_id = (loads.get ⟨i, h1⟩).load_id) ∧
    (∀ load : LoadVerificationInput, ∀ msg : String,
      (envOf load).outerExn = some msg →
      verifyBatchItem envOf load =
        { load_id := load.load_id
          verification_status := VerificationStatus.NEEDS_REVIEW
          reasons := ["Verification error: " ++ msg]
          verified_at := (envOf load).now
          metadata := none }) := by
  refine ⟨by simp [verifyMany], ?_, ?_, ?_⟩
  · intro i h1 h2
    simp [verifyMany]
  · intro i h1 h2
    simp only [verifyMany, List.get_eq_getElem, List.getElem_map]
    cases hoe : (envOf loads[i]).outerExn <;> simp [verifyBatchItem, hoe]
  · intro load msg hmsg
    simp [verifyBatchItem, hmsg]

/-- Concrete fixture: a second load whose verification throws at the batch
layer. -/
def badLoad : LoadVerificationInput :=
  { baseLoad with load_id := "load-bad" }

/-- Concrete fixture: per-load environments for the batch witness — the
`load-bad` offer's verification throws, the others are clean. -/
def envOfFix : LoadVerificationInput → VerifyEnv :=
  fun load =>
    if load.load_id == "load-bad" then { baseEnv with outerExn := some "boom" }
    else baseEnv

/-- Witness for C8: in the two-load batch `[baseLoad, badLoad]` where
verifying `badLoad` throws, the output keeps both ids in input order, the
first offer still resolves to its own `APPROVED` result, and the throwing
offer resolves to the `NEEDS_REVIEW` fallback. -/
theorem verifyMany_batch_witness :
    (verifyMany envOfFix [baseLoad, badLoad]).length = 2 ∧
    ((verifyMany envOfFix [baseLoad, badLoad]).get ⟨0, by decide⟩).load_id = "load-1" ∧
    ((verifyMany envOfFix [baseLoad, badLoad]).get
      ⟨0, by decide⟩).verification_status = VerificationStatus.APPROVED ∧
    (verifyMany envOfFix [baseLoad, badLoad]).get ⟨1, by decide⟩ =
      { load_id := "load-bad"
        verification_status := VerificationStatus.NEEDS_REVIEW
        reasons := ["Verification error: boom"]
        verified_at := 600000
        metadata := none } := by
  have hlen := (verifyMany_batch envOfFix [baseLoad, badLoad]).1
  have h0 := (verifyMany_batch envOfFix [baseLoad, badLoad]).2.1 0 (by decide) (by decide)
  have h1 := (verifyMany_batch envOfFix [baseLoad, badLoad]).2.1 1 (by decide) (by decide)
  have hfall := (verifyMany_batch envOfFix [baseLoad, badLoad]).2.2.2 badLoad "boom"
    (by decide)
  refine ⟨hlen, ?_, ?_, ?_⟩
  · rw [h0]
    decide
  · rw [h0]
    decide
  · rw [h1]
    show verifyBatchItem envOfFix badLoad = _
    rw [hfall]
    decide
